import Mathlib

/-!
# Verification of the sunsim solar-household simulation engine

Shallow embedding of the core logic of the repository (files `main.py`,
`main_ux.py`, `main_ux_appliance_status.py`).  The three files share one
data model (`SolarComponent`, `Appliance`, `SolarHousehold`) and one
hourly allocation step; they differ only in the iteration order of the
appliance loop (`main_ux_appliance_status.py` sorts by the priority
label string, the other two iterate in declaration order).

Numeric values (`power`, `capacity`, runtimes) are embedded as rationals.
Python `dict` runtime counters (`Appliance.daily_runtime`) are embedded
as total functions `Nat → ℚ` with default `0`, matching
`dict.get(day, 0)` semantics.  Time-of-day values (`QTime`) are embedded
as hour/minute pairs.
-/

namespace SunSim

/-- Model of a Qt `QTime` restricted to what the repository uses:
an hour and a minute. -/
structure QTime where
  hour : Nat
  minute : Nat
deriving DecidableEq, Repr

/-- A `QTime` that Qt would consider valid (the repository only ever
builds such times from `QTimeEdit` widgets). -/
def QTime.validb (t : QTime) : Bool :=
  decide (t.hour < 24) && decide (t.minute < 60)

/-- Model of `SolarComponent` from `main.py` lines 8-18: a named capacity rating. -/
structure SolarComponent where
  name : String
  capacity : ℚ
deriving DecidableEq, Repr

/-- Model of `Appliance` from `main.py` lines 20-39.  `daily_runtime` models the
Python dict (day index ↦ accumulated hours, default 0). -/
structure Appliance where
  name : String
  power : ℚ
  priority : String
  start_time : QTime
  end_time : QTime
  min_runtime : ℚ
  daily_runtime : Nat → ℚ

/-- Model of `Appliance.reset_daily_runtime` (`main.py` lines 30-31):
`self.daily_runtime[day] = 0`. -/
def Appliance.reset_daily_runtime (a : Appliance) (day : Nat) : Appliance :=
  { a with daily_runtime := fun d => if d = day then 0 else a.daily_runtime d }

/-- Model of `Appliance.add_runtime` (`main.py` lines 33-36): initialise the entry for the day
 to 0 when missing, then add `hours`.  With the default-0 function
representation this is a pointwise addition at `day`. -/
def Appliance.add_runtime (a : Appliance) (day : Nat) (hours : ℚ) : Appliance :=
  { a with daily_runtime := fun d => if d = day then a.daily_runtime d + hours else a.daily_runtime d }

/-- Model of `Appliance.get_daily_runtime` (`main.py` lines 38-39):
`self.daily_runtime.get(day, 0)`. -/
def Appliance.get_daily_runtime (a : Appliance) (day : Nat) : ℚ :=
  a.daily_runtime day

/-- Model of `SolarHousehold` from `main.py` lines 62-71. -/
structure SolarHousehold where
  solar_panel : Option SolarComponent
  battery : Option SolarComponent
  charge_controller : Option SolarComponent
  inverter : Option SolarComponent
  appliances : List Appliance
  sunrise : QTime
  sunset : QTime
  system_voltage : Int

/-! ## Persistence codec (`to_dict` / `from_dict`) -/

/-- The JSON object produced by `SolarComponent.to_dict` (`main.py` 13-14). -/
structure SolarComponentDict where
  name : String
  capacity : ℚ
deriving DecidableEq, Repr

/-- Model of `SolarComponent.to_dict` (`main.py` lines 13-14). -/
def SolarComponent.to_dict (c : SolarComponent) : SolarComponentDict :=
  ⟨c.name, c.capacity⟩

/-- Model of `SolarComponent.from_dict` (`main.py` lines 16-18). -/
def SolarComponent.from_dict (d : SolarComponentDict) : SolarComponent :=
  ⟨d.name, d.capacity⟩

/-- One decimal digit character, used by the `"HH:mm"` encoding. -/
def digitChar (d : Nat) : Char :=
  Char.ofNat (48 + d)

/-- Model of `QTime.toString("HH:mm")` (Qt behaviour used by
`Appliance.to_dict` and `SolarHousehold.to_dict`): a zero-padded
two-digit hour, a colon, and a zero-padded two-digit minute. -/
def QTime.toStringHHmm (t : QTime) : String :=
  String.mk [digitChar (t.hour / 10), digitChar (t.hour % 10), ':',
    digitChar (t.minute / 10), digitChar (t.minute % 10)]

/-- Model of `QTime.fromString(s, "HH:mm")` (Qt behaviour used by
`Appliance.from_dict` and `SolarHousehold.from_dict`); `none` stands for
the invalid Qt `QTime` returned on malformed input. -/
def QTime.fromStringHHmm (s : String) : Option QTime :=
  match s.data with
  | [h1, h2, ':', m1, m2] =>
    if h1.isDigit && h2.isDigit && m1.isDigit && m2.isDigit then
      let h := 10 * (h1.toNat - 48) + (h2.toNat - 48)
      let m := 10 * (m1.toNat - 48) + (m2.toNat - 48)
      if h < 24 && m < 60 then some ⟨h, m⟩ else none
    else none
  | _ => none

/-- The JSON object produced by `Appliance.to_dict` (`main.py` 41-49). -/
structure ApplianceDict where
  name : String
  power : ℚ
  priority : String
  start_time : String
  end_time : String
  min_runtime : ℚ
deriving DecidableEq, Repr

/-- Model of `Appliance.to_dict` (`main.py` lines 41-49): `daily_runtime` is not
serialized. -/
def Appliance.to_dict (a : Appliance) : ApplianceDict :=
  ⟨a.name, a.power, a.priority, a.start_time.toStringHHmm,
    a.end_time.toStringHHmm, a.min_runtime⟩

/-- Model of `Appliance.from_dict` (`main.py` lines 51-60): the constructor starts
a fresh empty `daily_runtime` dict. -/
def Appliance.from_dict (d : ApplianceDict) : Option Appliance :=
  match QTime.fromStringHHmm d.start_time, QTime.fromStringHHmm d.end_time with
  | some st, some et =>
    some ⟨d.name, d.power, d.priority, st, et, d.min_runtime, fun _ => 0⟩
  | _, _ => none

/-- The JSON object produced by `SolarHousehold.to_dict` (`main.py` 82-92). -/
structure SolarHouseholdDict where
  solar_panel : Option SolarComponentDict
  battery : Option SolarComponentDict
  charge_controller : Option SolarComponentDict
  inverter : Option SolarComponentDict
  appliances : List ApplianceDict
  sunrise : String
  sunset : String
  system_voltage : Int

/-- Model of `SolarHousehold.to_dict` (`main.py` lines 82-92): unset components
serialize as an explicit `null` (`none`). -/
def SolarHousehold.to_dict (h : SolarHousehold) : SolarHouseholdDict :=
  ⟨h.solar_panel.map SolarComponent.to_dict,
    h.battery.map SolarComponent.to_dict,
    h.charge_controller.map SolarComponent.to_dict,
    h.inverter.map SolarComponent.to_dict,
    h.appliances.map Appliance.to_dict,
    h.sunrise.toStringHHmm,
    h.sunset.toStringHHmm,
    h.system_voltage⟩

/-- Model of `SolarHousehold.from_dict` (`main.py` lines 94-105). -/
def SolarHousehold.from_dict (d : SolarHouseholdDict) : Option SolarHousehold := do
  let apps ← d.appliances.mapM Appliance.from_dict
  let sr ← QTime.fromStringHHmm d.sunrise
  let ss ← QTime.fromStringHHmm d.sunset
  some ⟨d.solar_panel.map SolarComponent.from_dict,
    d.battery.map SolarComponent.from_dict,
    d.charge_controller.map SolarComponent.from_dict,
    d.inverter.map SolarComponent.from_dict,
    apps, sr, ss, d.system_voltage⟩

/-! ## Simulation engine -/

/-- Model of `self.solar_generation_data.get(hour, 0)` with the table from
`main.py` lines 114-117 (identical in all three files). -/
def solar_generation_data (hour : Nat) : ℚ :=
  if hour = 6 then 0
  else if hour = 7 then 0.1
  else if hour = 8 then 0.3
  else if hour = 9 then 0.5
  else if hour = 10 then 0.7
  else if hour = 11 then 0.8
  else if hour = 12 then 0.9
  else if hour = 13 then 1.0
  else if hour = 14 then 0.9
  else if hour = 15 then 0.8
  else if hour = 16 then 0.7
  else if hour = 17 then 0.5
  else if hour = 18 then 0.3
  else if hour = 19 then 0.1
  else if hour = 20 then 0
  else 0

/-- One entry of the list produced by a simulation run
(`main.py` lines 347-354). -/
structure HourResult where
  day : Nat
  hour : Nat
  generation : ℚ
  power_used : ℚ
  battery_charge : ℚ
  appliances_running : List String
deriving DecidableEq, Repr

/-- The window test on `main.py` line 338:
`start_hour <= hour < end_hour or (end_hour < start_hour and
(hour >= start_hour or hour < end_hour))`. -/
def eligibleAt (a : Appliance) (hour : Nat) : Bool :=
  (decide (a.start_time.hour ≤ hour) && decide (hour < a.end_time.hour)) ||
    (decide (a.end_time.hour < a.start_time.hour) &&
      (decide (a.start_time.hour ≤ hour) || decide (hour < a.end_time.hour)))

/-- The full admission test of `main.py` lines 338-339: in the window,
enough available power, and still under the daily `min_runtime` budget. -/
def canRun (a : Appliance) (hour day : Nat) (available_power : ℚ) : Bool :=
  eligibleAt a hour && decide (a.power ≤ available_power) &&
    decide (a.get_daily_runtime day < a.min_runtime)

/-- The mutable loop state of `simulate_hour` (`main.py` lines 330-343):
the remaining budget, the accumulated `power_used`, the
`appliances_running` names, and the appliance objects after the in-place
`add_runtime` mutations, in iteration order. -/
structure AllocState where
  available_power : ℚ
  power_used : ℚ
  appliances_running : List String
  processed : List Appliance

/-- The body of the appliance loop in `simulate_hour`
(`main.py` lines 334-343, identical in all three files). -/
def allocStep (hour day : Nat) (s : AllocState) (a : Appliance) : AllocState :=
  if canRun a hour day s.available_power then
    ⟨s.available_power - a.power, s.power_used + a.power,
      s.appliances_running ++ [a.name], s.processed ++ [a.add_runtime day 1]⟩
  else
    ⟨s.available_power, s.power_used, s.appliances_running, s.processed ++ [a]⟩

/-- Model of `MainWindow.simulate_hour` (`main.py` lines 326-354; identical in
`main_ux.py`): iterates `self.household.appliances` in declaration
order.  Besides the result record it returns the appliance list after
the in-place `add_runtime` mutations. -/
def simulate_hour (battery_capacity : ℚ) (hour day : Nat)
    (battery_charge total_generation : ℚ) (appliances : List Appliance) :
    HourResult × List Appliance :=
  let generation := total_generation * solar_generation_data hour
  let s := appliances.foldl (allocStep hour day) ⟨generation + battery_charge, 0, [], []⟩
  (⟨day, hour, generation, s.power_used,
      min s.available_power battery_capacity, s.appliances_running⟩,
    s.processed)

/-- The iteration order of `main_ux_appliance_status.py` line 436:
`sorted(self.household.appliances, key=lambda x: x.priority)` — a stable
sort ascending by the literal priority label string. -/
def sortAppliancesByPriority (apps : List Appliance) : List Appliance :=
  apps.mergeSort (fun a b => decide (a.priority ≤ b.priority))

/-- Model of `MainWindow.simulate_hour` of `main_ux_appliance_status.py`
(lines 428-456): the same loop body run over the priority-sorted list.
The returned appliance list carries the mutations in sorted order. -/
def simulate_hour_sorted (battery_capacity : ℚ) (hour day : Nat)
    (battery_charge total_generation : ℚ) (appliances : List Appliance) :
    HourResult × List Appliance :=
  simulate_hour battery_capacity hour day battery_charge total_generation
    (sortAppliancesByPriority appliances)

/-- The inner hour loop of `simulate_days` / `simulate_day`
(`main.py` lines 319-322): run the given hours of one day, threading the
battery charge and the appliance states. -/
def simulate_hours (battery_capacity total_generation : ℚ) (day : Nat) :
    List Nat → ℚ → List Appliance → List HourResult × ℚ × List Appliance
  | [], battery_charge, apps => ([], battery_charge, apps)
  | h :: hs, battery_charge, apps =>
    let step := simulate_hour battery_capacity h day battery_charge total_generation apps
    let rest := simulate_hours battery_capacity total_generation day hs
      step.1.battery_charge step.2
    (step.1 :: rest.1, rest.2.1, rest.2.2)

/-- The outer day loop of `simulate_days` (`main_ux.py` lines 353-366,
`main.py` `simulate_day` lines 309-324 with the day list `[0, 1, 2]`):
each day first resets the runtime of every appliance for that day, then runs
hours 0-23. -/
def simulate_days_from (battery_capacity total_generation : ℚ) :
    List Nat → ℚ → List Appliance → List HourResult × ℚ × List Appliance
  | [], battery_charge, apps => ([], battery_charge, apps)
  | d :: ds, battery_charge, apps =>
    let apps0 := apps.map (fun a => a.reset_daily_runtime d)
    let dayRun := simulate_hours battery_capacity total_generation d
      (List.range 24) battery_charge apps0
    let rest := simulate_days_from battery_capacity total_generation ds
      dayRun.2.1 dayRun.2.2
    (dayRun.1 ++ rest.1, rest.2.1, rest.2.2)

/-- Model of `MainWindow.simulate_days(num_days)` (`main_ux.py` lines 352-366;
`simulate_day` of `main.py` is the special case `num_days = 3`): the
battery starts at full capacity.  Returns the result records and the
appliance states after the run. -/
def simulate_days (battery_capacity total_generation : ℚ) (num_days : Nat)
    (apps : List Appliance) : List HourResult × List Appliance :=
  let run := simulate_days_from battery_capacity total_generation
    (List.range num_days) battery_capacity apps
  (run.1, run.2.2)

/-- The two precondition failures of `run_simulation`
(`main.py` lines 297-304). -/
inductive SimError where
  | missingComponents
  | noAppliances
deriving DecidableEq, Repr

/-- Model of `MainWindow.run_simulation` (`main.py` lines 297-307): refuse when a
component is unset or no appliance exists, otherwise simulate 3 days. -/
def run_simulation (h : SolarHousehold) : Except SimError (List HourResult) :=
  match h.solar_panel, h.battery, h.charge_controller, h.inverter with
  | some sp, some b, some _, some _ =>
    if h.appliances.isEmpty then .error .noAppliances
    else .ok (simulate_days b.capacity sp.capacity 3 h.appliances).1
  | _, _, _, _ => .error .missingComponents

/-! ## Spec-side description of one allocation pass

`specAdmitFlags` transcribes §4.2 step 5 of the specification: walking
the appliances in iteration order, an appliance is admitted exactly when
the hour is in its window, the remaining `available_power` covers its
`power`, and its runtime for the day is still below `min_runtime`; on
admission its power is subtracted from the remaining budget. -/

/-- Admission flags for the appliances in iteration order, following the
wording of the specification (one flag per appliance). -/
def specAdmitFlags (hour day : Nat) : ℚ → List Appliance → List Bool
  | _, [] => []
  | available_power, a :: rest =>
    if canRun a hour day available_power then
      true :: specAdmitFlags hour day (available_power - a.power) rest
    else
      false :: specAdmitFlags hour day available_power rest

/-- Sum of the powers of the flagged (admitted) appliances. -/
def flaggedPowerSum : List Appliance → List Bool → ℚ
  | a :: as, true :: fs => a.power + flaggedPowerSum as fs
  | _ :: as, false :: fs => flaggedPowerSum as fs
  | _, _ => 0

/-- Names of the flagged (admitted) appliances, in iteration order. -/
def flaggedNames : List Appliance → List Bool → List String
  | a :: as, true :: fs => a.name :: flaggedNames as fs
  | _ :: as, false :: fs => flaggedNames as fs
  | _, _ => []

/-- The appliance list after the hour: each admitted appliance gains one
hour of runtime for `day`, the others are unchanged. -/
def applyFlags (day : Nat) : List Appliance → List Bool → List Appliance
  | a :: as, f :: fs =>
    (if f then a.add_runtime day 1 else a) :: applyFlags day as fs
  | as, [] => as
  | [], _ => []

theorem specAdmitFlags_length (hour day : Nat) :
    ∀ (avail : ℚ) (apps : List Appliance),
      (specAdmitFlags hour day avail apps).length = apps.length := by
  intro avail apps
  induction apps generalizing avail with
  | nil => rfl
  | cons a as ih =>
    rw [specAdmitFlags]
    by_cases h : canRun a hour day avail = true
    · rw [if_pos h]; simp [ih]
    · rw [if_neg h]; simp [ih]

/-- Closed form of the appliance `foldl` of `simulate_hour`, for an
arbitrary starting state. -/
theorem allocFoldl_spec (hour day : Nat) (apps : List Appliance) :
    ∀ s : AllocState,
      apps.foldl (allocStep hour day) s =
        ⟨s.available_power -
            flaggedPowerSum apps (specAdmitFlags hour day s.available_power apps),
          s.power_used +
            flaggedPowerSum apps (specAdmitFlags hour day s.available_power apps),
          s.appliances_running ++
            flaggedNames apps (specAdmitFlags hour day s.available_power apps),
          s.processed ++
            applyFlags day apps (specAdmitFlags hour day s.available_power apps)⟩ := by
  induction apps with
  | nil => intro s; simp [specAdmitFlags, flaggedPowerSum, flaggedNames, applyFlags]
  | cons a as ih =>
    intro s
    rw [List.foldl_cons, specAdmitFlags]
    by_cases h : canRun a hour day s.available_power = true
    · rw [if_pos h]
      have hstep : allocStep hour day s a =
          ⟨s.available_power - a.power, s.power_used + a.power,
            s.appliances_running ++ [a.name],
            s.processed ++ [a.add_runtime day 1]⟩ := by
        rw [allocStep, if_pos h]
      rw [hstep, ih]
      simp only [flaggedPowerSum, flaggedNames, applyFlags, if_true,
        AllocState.mk.injEq]
      refine ⟨by ring, by ring, by simp, by simp⟩
    · rw [if_neg h]
      have hstep : allocStep hour day s a =
          ⟨s.available_power, s.power_used, s.appliances_running,
            s.processed ++ [a]⟩ := by
        rw [allocStep, if_neg h]
      rw [hstep, ih]
      simp only [flaggedPowerSum, flaggedNames, applyFlags]
      simp

/-- Closed form of `simulate_hour`: its output is fully described by the
specification-side admission flags. -/
theorem simulate_hour_eq (battery_capacity : ℚ) (hour day : Nat)
    (battery_charge total_generation : ℚ) (apps : List Appliance) :
    simulate_hour battery_capacity hour day battery_charge total_generation apps =
      (⟨day, hour, total_generation * solar_generation_data hour,
          flaggedPowerSum apps (specAdmitFlags hour day
            (total_generation * solar_generation_data hour + battery_charge) apps),
          min (total_generation * solar_generation_data hour + battery_charge -
              flaggedPowerSum apps (specAdmitFlags hour day
                (total_generation * solar_generation_data hour + battery_charge) apps))
            battery_capacity,
          flaggedNames apps (specAdmitFlags hour day
            (total_generation * solar_generation_data hour + battery_charge) apps)⟩,
        applyFlags day apps (specAdmitFlags hour day
          (total_generation * solar_generation_data hour + battery_charge) apps)) := by
  rw [simulate_hour, allocFoldl_spec]
  simp

/-! ## Claims -/

/-- C1: in one hourly allocation step, an appliance considered in
iteration order is admitted exactly when the hour lies in its window,
`available_power ≥ appliance.power`, and
`get_daily_runtime(day) < min_runtime` (the `specAdmitFlags` recursion,
transcribed from the specification); on admission its power is
subtracted from `available_power`, one hour is added to its
`daily_runtime` for the day, and its name is appended to the running
list; `power_used` is the sum of the power values of the admitted appliances. -/
theorem claim_C1 (battery_capacity : ℚ) (hour day : Nat)
    (battery_charge total_generation : ℚ) (apps : List Appliance) :
    (simulate_hour battery_capacity hour day battery_charge total_generation
        apps).1.power_used =
      flaggedPowerSum apps (specAdmitFlags hour day
        (total_generation * solar_generation_data hour + battery_charge) apps) ∧
    (simulate_hour battery_capacity hour day battery_charge total_generation
        apps).1.appliances_running =
      flaggedNames apps (specAdmitFlags hour day
        (total_generation * solar_generation_data hour + battery_charge) apps) ∧
    (simulate_hour battery_capacity hour day battery_charge total_generation
        apps).2 =
      applyFlags day apps (specAdmitFlags hour day
        (total_generation * solar_generation_data hour + battery_charge) apps) ∧
    (simulate_hour battery_capacity hour day battery_charge total_generation
        apps).1.battery_charge =
      min (total_generation * solar_generation_data hour + battery_charge -
          flaggedPowerSum apps (specAdmitFlags hour day
            (total_generation * solar_generation_data hour + battery_charge) apps))
        battery_capacity := by
  rw [simulate_hour_eq]
  exact ⟨rfl, rfl, rfl, rfl⟩

/-- The appliance used in the counterexample and witness of C3: power 3,
always-daytime window, one hour of daily runtime budget. -/
def appB : Appliance := ⟨"B", 3, "High", ⟨0, 0⟩, ⟨23, 0⟩, 1, fun _ => 0⟩

/-- The blocking appliance of the C3 counterexample: power 5, same
window. -/
def appA : Appliance := ⟨"A", 5, "High", ⟨0, 0⟩, ⟨23, 0⟩, 1, fun _ => 0⟩

/-- C3 fails on the code: with appliances `[A (5 W), B (3 W)]`, zero
generation and battery charge 4, only `B` is admitted; raising the
battery charge to 5 lets `A` run instead and drops `B`, so the admitted
set is not monotone in `battery_charge_in`. -/
theorem claim_C3_counterexample :
    (4 : ℚ) ≤ 5 ∧
    "B" ∈ (simulate_hour 100 0 0 4 0 [appA, appB]).1.appliances_running ∧
    "B" ∉ (simulate_hour 100 0 0 5 0 [appA, appB]).1.appliances_running := by
  with_unfolding_all decide

/-- C3 amended: the per-appliance admission test is monotone in the
available power at the moment the appliance is considered (if an
appliance is admitted with budget `av`, it is admitted with any larger
budget `av'`); the admitted set of a whole hour is not monotone in
`battery_charge_in` (see the counterexample), because an earlier,
larger appliance admitted only at the higher charge can exhaust the
budget. -/
theorem claim_C3 (a : Appliance) (hour day : Nat) (av av' : ℚ)
    (h : canRun a hour day av = true) (hle : av ≤ av') :
    canRun a hour day av' = true := by
  simp only [canRun, Bool.and_eq_true, decide_eq_true_eq] at h ⊢
  exact ⟨⟨h.1.1, h.1.2.trans hle⟩, h.2⟩

theorem claim_C3_witness :
    canRun appB 0 0 4 = true ∧ (4 : ℚ) ≤ 7 ∧ canRun appB 0 0 7 = true :=
  ⟨by with_unfolding_all decide, by norm_num,
    claim_C3 appB 0 0 4 7 (by with_unfolding_all decide) (by norm_num)⟩

/-- The appliance used in the concrete part of C6: window 22:00-06:00,
wrapping midnight. -/
def nightApp : Appliance := ⟨"night", 1, "Low", ⟨22, 0⟩, ⟨6, 0⟩, 2, fun _ => 0⟩

/-- C6: the eligibility window test is `start_hour ≤ hour < end_hour`
when `start_hour ≤ end_hour`, and `hour ≥ start_hour ∨ hour < end_hour`
when the window wraps midnight; in particular a 22:00-06:00 appliance is
eligible at hours 23 and 3 but not at hour 10. -/
theorem claim_C6 :
    (∀ (a : Appliance) (hour : Nat),
      eligibleAt a hour = true ↔
        (if a.start_time.hour ≤ a.end_time.hour
          then a.start_time.hour ≤ hour ∧ hour < a.end_time.hour
          else hour ≥ a.start_time.hour ∨ hour < a.end_time.hour)) ∧
    eligibleAt nightApp 23 = true ∧
    eligibleAt nightApp 3 = true ∧
    eligibleAt nightApp 10 = false := by
  refine ⟨?_, by decide, by decide, by decide⟩
  intro a hour
  simp only [eligibleAt, Bool.or_eq_true, Bool.and_eq_true, decide_eq_true_eq]
  by_cases hse : a.start_time.hour ≤ a.end_time.hour
  · rw [if_pos hse]
    omega
  · rw [if_neg hse]
    omega

/-- C7: the generation fraction is the exact fixed table of §4.1, every
hour outside 6-20 yields 0, and the generation of an hour equals panel
capacity times the fraction. -/
theorem claim_C7 :
    (solar_generation_data 6 = 0 ∧ solar_generation_data 7 = 0.1 ∧
      solar_generation_data 8 = 0.3 ∧ solar_generation_data 9 = 0.5 ∧
      solar_generation_data 10 = 0.7 ∧ solar_generation_data 11 = 0.8 ∧
      solar_generation_data 12 = 0.9 ∧ solar_generation_data 13 = 1.0 ∧
      solar_generation_data 14 = 0.9 ∧ solar_generation_data 15 = 0.8 ∧
      solar_generation_data 16 = 0.7 ∧ solar_generation_data 17 = 0.5 ∧
      solar_generation_data 18 = 0.3 ∧ solar_generation_data 19 = 0.1 ∧
      solar_generation_data 20 = 0) ∧
    (∀ hour : Nat, hour < 6 ∨ 20 < hour → solar_generation_data hour = 0) ∧
    (∀ (battery_capacity : ℚ) (hour day : Nat)
      (battery_charge total_generation : ℚ) (apps : List Appliance),
      (simulate_hour battery_capacity hour day battery_charge total_generation
          apps).1.generation = total_generation * solar_generation_data hour) := by
  refine ⟨by with_unfolding_all decide, ?_, ?_⟩
  · intro hour h
    simp only [solar_generation_data]
    repeat rw [if_neg (by omega)]
  · intro battery_capacity hour day battery_charge total_generation apps
    rw [simulate_hour_eq]

theorem claim_C7_witness :
    (23 < 6 ∨ 20 < 23) ∧ solar_generation_data 23 = 0 :=
  ⟨Or.inr (by norm_num), claim_C7.2.1 23 (Or.inr (by norm_num))⟩

/-- The running-name list of an hour is a sublist of the appliance names
in iteration order. -/
theorem flaggedNames_sublist :
    ∀ (apps : List Appliance) (fl : List Bool),
      List.Sublist (flaggedNames apps fl) (apps.map Appliance.name) := by
  intro apps
  induction apps with
  | nil => intro fl; cases fl <;> simp [flaggedNames]
  | cons a as ih =>
    intro fl
    match fl with
    | [] => simp [flaggedNames]
    | true :: fs =>
      rw [flaggedNames, List.map_cons]
      exact List.Sublist.cons₂ a.name (ih fs)
    | false :: fs =>
      rw [flaggedNames, List.map_cons]
      exact List.Sublist.cons a.name (ih fs)

/-- A low-priority appliance for the concrete ordering part of C2. -/
def lowPriorityApp : Appliance := ⟨"l", 1, "Low", ⟨0, 0⟩, ⟨23, 0⟩, 1, fun _ => 0⟩

/-- A medium-priority appliance for the concrete ordering part of C2. -/
def mediumPriorityApp : Appliance := ⟨"m", 1, "Medium", ⟨0, 0⟩, ⟨23, 0⟩, 1, fun _ => 0⟩

/-- A high-priority appliance for the concrete ordering part of C2. -/
def highPriorityApp : Appliance := ⟨"h", 1, "High", ⟨0, 0⟩, ⟨23, 0⟩, 1, fun _ => 0⟩

/-- C2: the `main_ux_appliance_status.py` variant runs the hourly step
over the appliances sorted ascending by the literal priority label
string (a stable sort, a permutation of the input, pairwise ordered by
`String` order), under which `"High" < "Low" < "Medium"` — not the
logical High > Medium > Low order — so in the concrete example the High
appliance is considered before the Low one and the Low one before the
Medium one; the other variants iterate in declaration order with no
sort, so their running lists follow the declaration order of the
appliance names. -/
theorem claim_C2 :
    (∀ (battery_capacity : ℚ) (hour day : Nat)
      (battery_charge total_generation : ℚ) (apps : List Appliance),
      simulate_hour_sorted battery_capacity hour day battery_charge
          total_generation apps =
        simulate_hour battery_capacity hour day battery_charge
          total_generation (sortAppliancesByPriority apps)) ∧
    (∀ apps : List Appliance,
      List.Perm (sortAppliancesByPriority apps) apps) ∧
    (∀ apps : List Appliance,
      (sortAppliancesByPriority apps).Pairwise
        (fun a b => a.priority ≤ b.priority)) ∧
    ("High" < "Low" ∧ "Low" < "Medium") ∧
    (sortAppliancesByPriority [lowPriorityApp, mediumPriorityApp, highPriorityApp]
      = [highPriorityApp, lowPriorityApp, mediumPriorityApp]) ∧
    (∀ (battery_capacity : ℚ) (hour day : Nat)
      (battery_charge total_generation : ℚ) (apps : List Appliance),
      List.Sublist
        ((simulate_hour battery_capacity hour day battery_charge
            total_generation apps).1.appliances_running)
        (apps.map Appliance.name)) := by
  refine ⟨fun _ _ _ _ _ _ => rfl, ?_, ?_, by with_unfolding_all decide, ?_, ?_⟩
  · intro apps
    exact List.mergeSort_perm apps _
  · intro apps
    have h := @List.sorted_mergeSort Appliance
      (fun a b : Appliance => decide (a.priority ≤ b.priority))
      (fun a b c hab hbc => by
        simp only [decide_eq_true_eq] at hab hbc ⊢
        exact le_trans hab hbc)
      (fun a b => by
        simp only [Bool.or_eq_true, decide_eq_true_eq]
        exact le_total a.priority b.priority)
      apps
    exact h.imp (fun hab => by simpa using hab)
  · with_unfolding_all rfl
  · intro battery_capacity hour day battery_charge total_generation apps
    rw [simulate_hour_eq]
    exact flaggedNames_sublist apps _

/-- Every hour ends with `battery_charge = min(available_power, capacity)`,
hence at most the battery capacity. -/
theorem simulate_hour_battery_le (battery_capacity : ℚ) (hour day : Nat)
    (battery_charge total_generation : ℚ) (apps : List Appliance) :
    (simulate_hour battery_capacity hour day battery_charge total_generation
        apps).1.battery_charge ≤ battery_capacity := by
  rw [simulate_hour_eq]
  exact min_le_right _ _

theorem simulate_hours_battery_le (battery_capacity total_generation : ℚ)
    (day : Nat) :
    ∀ (hs : List Nat) (battery_charge : ℚ) (apps : List Appliance),
      ∀ r ∈ (simulate_hours battery_capacity total_generation day hs
          battery_charge apps).1,
        r.battery_charge ≤ battery_capacity := by
  intro hs
  induction hs with
  | nil => intro bc apps r hr; simp [simulate_hours] at hr
  | cons h hs ih =>
    intro bc apps r hr
    rw [simulate_hours] at hr
    rcases List.mem_cons.mp hr with hr | hr
    · subst hr; exact simulate_hour_battery_le _ _ _ _ _ _
    · exact ih _ _ r hr

theorem simulate_days_from_battery_le (battery_capacity total_generation : ℚ) :
    ∀ (ds : List Nat) (battery_charge : ℚ) (apps : List Appliance),
      ∀ r ∈ (simulate_days_from battery_capacity total_generation ds
          battery_charge apps).1,
        r.battery_charge ≤ battery_capacity := by
  intro ds
  induction ds with
  | nil => intro bc apps r hr; simp [simulate_days_from] at hr
  | cons d ds ih =>
    intro bc apps r hr
    rw [simulate_days_from] at hr
    rcases List.mem_append.mp hr with hr | hr
    · exact simulate_hours_battery_le _ _ _ _ _ _ r hr
    · exact ih _ _ r hr

/-- C4: the end-of-hour battery charge equals
`min(available_power after all admissions, battery capacity)` — where
the post-admission available power is
`generation + battery_charge_in − power_used` — and consequently every
result record of a simulation run has `battery_charge ≤ capacity`. -/
theorem claim_C4 :
    (∀ (battery_capacity : ℚ) (hour day : Nat)
      (battery_charge total_generation : ℚ) (apps : List Appliance),
      (simulate_hour battery_capacity hour day battery_charge total_generation
          apps).1.battery_charge =
        min ((simulate_hour battery_capacity hour day battery_charge
              total_generation apps).1.generation + battery_charge -
            (simulate_hour battery_capacity hour day battery_charge
              total_generation apps).1.power_used)
          battery_capacity) ∧
    (∀ (battery_capacity total_generation : ℚ) (num_days : Nat)
      (apps : List Appliance),
      ∀ r ∈ (simulate_days battery_capacity total_generation num_days apps).1,
        r.battery_charge ≤ battery_capacity) := by
  constructor
  · intro battery_capacity hour day battery_charge total_generation apps
    rw [simulate_hour_eq]
  · intro battery_capacity total_generation num_days apps r hr
    exact simulate_days_from_battery_le _ _ _ _ _ r hr

theorem claim_C4_witness :
    (⟨0, 0, 0, 0, 1, []⟩ : HourResult) ∈ (simulate_days 1 0 1 []).1 ∧
    (⟨0, 0, 0, 0, 1, []⟩ : HourResult).battery_charge ≤ 1 :=
  ⟨by with_unfolding_all decide,
    claim_C4.2 1 0 1 [] ⟨0, 0, 0, 0, 1, []⟩ (by with_unfolding_all decide)⟩

theorem simulate_hours_length (battery_capacity total_generation : ℚ)
    (day : Nat) :
    ∀ (hs : List Nat) (battery_charge : ℚ) (apps : List Appliance),
      (simulate_hours battery_capacity total_generation day hs
          battery_charge apps).1.length = hs.length := by
  intro hs
  induction hs with
  | nil => intro bc apps; rfl
  | cons h hs ih =>
    intro bc apps
    rw [simulate_hours]
    simp [ih]

theorem simulate_days_from_length (battery_capacity total_generation : ℚ) :
    ∀ (ds : List Nat) (battery_charge : ℚ) (apps : List Appliance),
      (simulate_days_from battery_capacity total_generation ds
          battery_charge apps).1.length = ds.length * 24 := by
  intro ds
  induction ds with
  | nil => intro bc apps; rfl
  | cons d ds ih =>
    intro bc apps
    rw [simulate_days_from]
    simp [List.length_append, simulate_hours_length, ih]
    ring

/-- C8: running a simulation fails with a precondition error — producing
no result records at all — exactly when one of the four components is
unset or the appliance list is empty; otherwise it succeeds with the
full 3-day, 72-record result sequence. -/
theorem claim_C8 (h : SolarHousehold) :
    ((∃ e, run_simulation h = .error e) ↔
      (h.solar_panel = none ∨ h.battery = none ∨ h.charge_controller = none ∨
        h.inverter = none ∨ h.appliances = [])) ∧
    (∀ rs, run_simulation h = .ok rs → rs.length = 72) := by
  rcases h with ⟨sp, b, cc, inv, apps, sr, ss, v⟩
  cases sp <;> cases b <;> cases cc <;> cases inv <;>
    simp only [run_simulation] <;>
    first
    | (constructor
       · simp
       · intro rs hrs; cases hrs)
    | (cases apps with
       | nil =>
         constructor
         · simp
         · intro rs hrs; simp at hrs
       | cons a as =>
         constructor
         · simp
         · intro rs hrs
           simp only [List.isEmpty_cons, if_neg Bool.false_ne_true,
             Except.ok.injEq] at hrs
           subst hrs
           have := simulate_days_from_length
             ‹SolarComponent›.capacity ‹SolarComponent›.capacity
             (List.range 3)
           simp [simulate_days, simulate_days_from_length])

theorem claim_C8_witness :
    run_simulation ⟨some ⟨"Solar Panel", 100⟩, some ⟨"Battery", 50⟩,
        some ⟨"Charge Controller", 30⟩, some ⟨"Inverter", 100⟩,
        [appB], ⟨6, 0⟩, ⟨20, 0⟩, 12⟩ =
      .ok (simulate_days 50 100 3 [appB]).1 ∧
    (simulate_days 50 100 3 [appB]).1.length = 72 :=
  ⟨rfl,
    (claim_C8 ⟨some ⟨"Solar Panel", 100⟩, some ⟨"Battery", 50⟩,
        some ⟨"Charge Controller", 30⟩, some ⟨"Inverter", 100⟩,
        [appB], ⟨6, 0⟩, ⟨20, 0⟩, 12⟩).2 _ rfl⟩

/-! ## Codec round trip (C9) -/

/-- The Python `Appliance` constructor starts every deserialized appliance
with an empty `daily_runtime` dict; `eraseDailyRuntime` is the
corresponding erasure on the in-memory appliance. -/
def eraseDailyRuntime (a : Appliance) : Appliance :=
  { a with daily_runtime := fun _ => 0 }

/-- A household with the `daily_runtime` of every appliance erased: what a
serialize/deserialize round trip reproduces. -/
def eraseDailyRuntimes (h : SolarHousehold) : SolarHousehold :=
  { h with appliances := h.appliances.map eraseDailyRuntime }

theorem digitChar_toNat {d : Nat} (hd : d < 10) :
    (digitChar d).toNat = 48 + d := by
  interval_cases d <;> decide

theorem digitChar_isDigit {d : Nat} (hd : d < 10) :
    (digitChar d).isDigit = true := by
  interval_cases d <;> decide

/-- Parsing inverts printing on valid times. -/
theorem fromStringHHmm_toStringHHmm {t : QTime} (h : t.validb = true) :
    QTime.fromStringHHmm t.toStringHHmm = some t := by
  obtain ⟨th, tm⟩ := t
  have hhm : th < 24 ∧ tm < 60 := by
    simpa [QTime.validb] using h
  have h1 : th / 10 < 10 := by omega
  have h2 : th % 10 < 10 := by omega
  have h3 : tm / 10 < 10 := by omega
  have h4 : tm % 10 < 10 := by omega
  simp only [QTime.toStringHHmm, QTime.fromStringHHmm,
    digitChar_isDigit h1, digitChar_isDigit h2, digitChar_isDigit h3,
    digitChar_isDigit h4, digitChar_toNat h1, digitChar_toNat h2,
    digitChar_toNat h3, digitChar_toNat h4, Bool.and_self, if_true]
  have e1 : 10 * (48 + th / 10 - 48) + (48 + th % 10 - 48) = th := by omega
  have e2 : 10 * (48 + tm / 10 - 48) + (48 + tm % 10 - 48) = tm := by omega
  rw [e1, e2]
  have : (decide (th < 24) && decide (tm < 60)) = true := by
    simp [hhm.1, hhm.2]
  simp [hhm.1, hhm.2]

theorem appliance_roundtrip {a : Appliance}
    (h1 : a.start_time.validb = true) (h2 : a.end_time.validb = true) :
    Appliance.from_dict a.to_dict = some (eraseDailyRuntime a) := by
  simp [Appliance.from_dict, Appliance.to_dict,
    fromStringHHmm_toStringHHmm h1, fromStringHHmm_toStringHHmm h2,
    eraseDailyRuntime]

theorem appliances_roundtrip :
    ∀ l : List Appliance,
      (∀ a ∈ l, a.start_time.validb = true ∧ a.end_time.validb = true) →
      (l.map Appliance.to_dict).mapM Appliance.from_dict =
        some (l.map eraseDailyRuntime) := by
  intro l
  induction l with
  | nil => intro _; rfl
  | cons a as ih =>
    intro hv
    have ha := hv a (List.mem_cons_self a as)
    rw [List.map_cons, List.mapM_cons, appliance_roundtrip ha.1 ha.2,
      ih (fun x hx => hv x (List.mem_cons_of_mem a hx))]
    rfl

theorem component_roundtrip (c : Option SolarComponent) :
    (c.map SolarComponent.to_dict).map SolarComponent.from_dict = c := by
  cases c <;> rfl

/-- C9: deserializing a serialized household reproduces every field of
the data model except the `daily_runtime` counters of the appliances;
time-of-day fields are encoded as zero-padded `"HH:mm"` strings
(e.g. 7:05 → `"07:05"`) and an unset component is encoded as an
explicit `none`. -/
theorem claim_C9 (h : SolarHousehold)
    (happs : h.appliances.all
      (fun a => a.start_time.validb && a.end_time.validb) = true)
    (hsr : h.sunrise.validb = true) (hss : h.sunset.validb = true) :
    SolarHousehold.from_dict h.to_dict = some (eraseDailyRuntimes h) ∧
    (h.solar_panel = none → h.to_dict.solar_panel = none) ∧
    h.to_dict.sunrise = h.sunrise.toStringHHmm ∧
    QTime.toStringHHmm ⟨7, 5⟩ = "07:05" := by
  refine ⟨?_, ?_, rfl, by decide⟩
  · have happs' : ∀ a ∈ h.appliances,
        a.start_time.validb = true ∧ a.end_time.validb = true := by
      intro a ha
      have := List.all_eq_true.mp happs a ha
      simpa [Bool.and_eq_true] using this
    simp only [SolarHousehold.from_dict, SolarHousehold.to_dict,
      appliances_roundtrip h.appliances happs',
      fromStringHHmm_toStringHHmm hsr, fromStringHHmm_toStringHHmm hss,
      component_roundtrip, Option.bind_some, Option.some_bind]
    rfl
  · intro hnone
    simp [SolarHousehold.to_dict, hnone]

/-- The household used as the concrete C9 witness. -/
def roundtripHousehold : SolarHousehold :=
  ⟨some ⟨"Solar Panel", 100⟩, some ⟨"Battery", 50⟩,
    some ⟨"Charge Controller", 30⟩, some ⟨"Inverter", 100⟩,
    [⟨"Fridge", 150, "High", ⟨9, 30⟩, ⟨18, 45⟩, 4, fun _ => 0⟩],
    ⟨6, 0⟩, ⟨20, 0⟩, 12⟩

theorem claim_C9_witness :
    roundtripHousehold.appliances.all
      (fun a => a.start_time.validb && a.end_time.validb) = true ∧
    roundtripHousehold.sunrise.validb = true ∧
    roundtripHousehold.sunset.validb = true ∧
    SolarHousehold.from_dict roundtripHousehold.to_dict =
      some (eraseDailyRuntimes roundtripHousehold) :=
  ⟨by decide, by decide, by decide,
    (claim_C9 roundtripHousehold (by decide) (by decide) (by decide)).1⟩

/-! ## Empty-window appliances (C10) -/

/-- An appliance whose start hour equals its end hour never passes the
window test: the non-wrapping branch needs `start ≤ h < start` and the
wrapping branch needs `end < start`. -/
theorem eligibleAt_eq_false_of_hour_eq {a : Appliance}
    (h : a.start_time.hour = a.end_time.hour) (hour : Nat) :
    eligibleAt a hour = false := by
  cases heq : eligibleAt a hour with
  | false => rfl
  | true =>
    exfalso
    revert heq
    simp only [eligibleAt, h, Bool.or_eq_true, Bool.and_eq_true,
      decide_eq_true_eq]
    omega

/-- The eligibility test only looks at the schedule window, not at the
runtime counters. -/
theorem eligibleAt_reset (a : Appliance) (d hour : Nat) :
    eligibleAt (a.reset_daily_runtime d) hour = eligibleAt a hour := rfl

theorem applyFlags_specAdmit_ineligible (hour day : Nat) :
    ∀ (apps : List Appliance) (avail : ℚ) (i : Nat) (a : Appliance),
      apps[i]? = some a → eligibleAt a hour = false →
      (applyFlags day apps (specAdmitFlags hour day avail apps))[i]? =
        some a := by
  intro apps
  induction apps with
  | nil => intro avail i a h; simp at h
  | cons b bs ih =>
    intro avail i a h helig
    rw [specAdmitFlags]
    by_cases hb : canRun b hour day avail = true
    · rw [if_pos hb, applyFlags]
      cases i with
      | zero =>
        exfalso
        have hba : b = a := by simpa using h
        subst hba
        have : eligibleAt b hour = true := by
          simp only [canRun, Bool.and_eq_true] at hb
          exact hb.1.1
        rw [helig] at this
        cases this
      | succ j =>
        simpa using ih _ j a (by simpa using h) helig
    · rw [if_neg hb, applyFlags]
      cases i with
      | zero => simpa using h
      | succ j =>
        simpa using ih _ j a (by simpa using h) helig

theorem simulate_hour_ineligible (battery_capacity : ℚ) (hour day : Nat)
    (battery_charge total_generation : ℚ) (apps : List Appliance)
    (i : Nat) (a : Appliance) (h : apps[i]? = some a)
    (helig : eligibleAt a hour = false) :
    ((simulate_hour battery_capacity hour day battery_charge total_generation
        apps).2)[i]? = some a := by
  rw [simulate_hour_eq]
  exact applyFlags_specAdmit_ineligible hour day apps _ i a h helig

theorem simulate_hours_ineligible (battery_capacity total_generation : ℚ)
    (day : Nat) :
    ∀ (hs : List Nat) (battery_charge : ℚ) (apps : List Appliance)
      (i : Nat) (a : Appliance), apps[i]? = some a →
      (∀ hour, eligibleAt a hour = false) →
      ((simulate_hours battery_capacity total_generation day hs battery_charge
          apps).2.2)[i]? = some a := by
  intro hs
  induction hs with
  | nil => intro bc apps i a h _; exact h
  | cons hr hs ih =>
    intro bc apps i a h helig
    rw [simulate_hours]
    exact ih _ _ i a (simulate_hour_ineligible _ _ _ _ _ _ i a h (helig hr)) helig

/-- The effect that a run over the day list `ds` has on an appliance
that is never admitted: the runtime entry of each of those days is reset to
0 and nothing else changes. -/
def zeroDays (ds : List Nat) (a : Appliance) : Appliance :=
  { a with daily_runtime := fun d => if d ∈ ds then 0 else a.daily_runtime d }

theorem zeroDays_nil (a : Appliance) : zeroDays [] a = a := by
  simp only [zeroDays, List.not_mem_nil, if_false]

theorem zeroDays_cons_reset (a : Appliance) (d : Nat) (ds : List Nat) :
    zeroDays ds (a.reset_daily_runtime d) = zeroDays (d :: ds) a := by
  simp only [zeroDays, Appliance.reset_daily_runtime, Appliance.mk.injEq,
    true_and]
  funext x
  by_cases hx : x ∈ ds
  · simp [hx, List.mem_cons]
  · by_cases hxd : x = d
    · simp [hx, hxd, List.mem_cons]
    · simp [hx, hxd, List.mem_cons]

theorem simulate_days_from_ineligible (battery_capacity total_generation : ℚ) :
    ∀ (ds : List Nat) (battery_charge : ℚ) (apps : List Appliance)
      (i : Nat) (a : Appliance), apps[i]? = some a →
      (∀ hour, eligibleAt a hour = false) →
      ((simulate_days_from battery_capacity total_generation ds battery_charge
          apps).2.2)[i]? = some (zeroDays ds a) := by
  intro ds
  induction ds with
  | nil => intro bc apps i a h _; rw [zeroDays_nil]; exact h
  | cons d ds ih =>
    intro bc apps i a h helig
    simp only [simulate_days_from]
    have h0 : (apps.map (fun a => a.reset_daily_runtime d))[i]? =
        some (a.reset_daily_runtime d) := by
      rw [List.getElem?_map, h]
      rfl
    have helig' : ∀ hour, eligibleAt (a.reset_daily_runtime d) hour = false :=
      fun hour => (eligibleAt_reset a d hour).trans (helig hour)
    have h1 := simulate_hours_ineligible battery_capacity total_generation d
      (List.range 24) bc _ i _ h0 helig'
    generalize simulate_hours battery_capacity total_generation d
      (List.range 24) bc
      (apps.map fun a => a.reset_daily_runtime d) = dayRun at h1 ⊢
    rw [← zeroDays_cons_reset]
    exact ih dayRun.2.1 dayRun.2.2 i _ h1 helig'

/-- C10: an appliance whose start hour equals its end hour has an empty
window — it is never eligible in any hour, hence never admitted, and
after a run over any number of days its `daily_runtime` is 0 for every
simulated day. -/
theorem claim_C10 (battery_capacity total_generation : ℚ) (num_days : Nat)
    (apps : List Appliance) (i : Nat) (a : Appliance)
    (ha : apps[i]? = some a)
    (hse : a.start_time.hour = a.end_time.hour) :
    (∀ hour, eligibleAt a hour = false) ∧
    (∀ day, day < num_days →
      (((simulate_days battery_capacity total_generation num_days
            apps).2)[i]?).map (fun x => x.daily_runtime day) = some 0) := by
  have helig : ∀ hour, eligibleAt a hour = false :=
    fun hour => eligibleAt_eq_false_of_hour_eq hse hour
  refine ⟨helig, ?_⟩
  intro day hday
  have h := simulate_days_from_ineligible battery_capacity total_generation
    (List.range num_days) battery_capacity apps i a ha helig
  simp only [simulate_days]
  rw [h]
  simp [zeroDays, List.mem_range, hday]

/-- The empty-window appliance of the C10 witness: 05:00-05:30. -/
def emptyWindowApp : Appliance := ⟨"Z", 1, "Low", ⟨5, 0⟩, ⟨5, 30⟩, 2, fun _ => 0⟩

theorem claim_C10_witness :
    [appB, emptyWindowApp][1]? = some emptyWindowApp ∧
    emptyWindowApp.start_time.hour = emptyWindowApp.end_time.hour ∧
    0 < 1 ∧
    (((simulate_days 10 100 1 [appB, emptyWindowApp]).2)[1]?).map
      (fun x => x.daily_runtime 0) = some 0 :=
  ⟨rfl, rfl, by norm_num,
    (claim_C10 10 100 1 [appB, emptyWindowApp] 1 emptyWindowApp rfl rfl).2 0
      (by norm_num)⟩

/-! ## Idempotence of repeated runs (C5)

The hourly step for day `d` reads, for each appliance, only its
configuration fields and its `daily_runtime` entry for `d`; and every
day of the driver starts by resetting that entry.  So a second run on
the mutated appliances replays the first run exactly.  `applianceConfig`
and `dayKey` capture the two views. -/

/-- The configuration fields of an appliance (everything except the
mutable `daily_runtime` dict). -/
def applianceConfig (a : Appliance) : String × ℚ × String × QTime × QTime × ℚ :=
  (a.name, a.power, a.priority, a.start_time, a.end_time, a.min_runtime)

/-- Everything the day-`d` hourly step can observe of an appliance. -/
def dayKey (day : Nat) (a : Appliance) :
    (String × ℚ × String × QTime × QTime × ℚ) × ℚ :=
  (applianceConfig a, a.daily_runtime day)

theorem applianceConfig_inj {a b : Appliance}
    (h : applianceConfig a = applianceConfig b) :
    a.name = b.name ∧ a.power = b.power ∧ a.priority = b.priority ∧
    a.start_time = b.start_time ∧ a.end_time = b.end_time ∧
    a.min_runtime = b.min_runtime := by
  simpa [applianceConfig, Prod.ext_iff] using h

theorem applianceConfig_add_runtime (a : Appliance) (day : Nat) (q : ℚ) :
    applianceConfig (a.add_runtime day q) = applianceConfig a := rfl

theorem applianceConfig_reset (a : Appliance) (day : Nat) :
    applianceConfig (a.reset_daily_runtime day) = applianceConfig a := rfl

theorem dayKey_add_runtime_self (a : Appliance) (day : Nat) (q : ℚ) :
    dayKey day (a.add_runtime day q) =
      (applianceConfig a, a.daily_runtime day + q) := by
  simp [dayKey, Appliance.add_runtime, applianceConfig]

theorem dayKey_reset_self (a : Appliance) (day : Nat) :
    dayKey day (a.reset_daily_runtime day) = (applianceConfig a, 0) := by
  simp [dayKey, Appliance.reset_daily_runtime, applianceConfig]

theorem dayKey_map_config {day : Nat} {apps apps' : List Appliance}
    (h : apps.map (dayKey day) = apps'.map (dayKey day)) :
    apps.map applianceConfig = apps'.map applianceConfig := by
  have e : ∀ l : List Appliance,
      l.map applianceConfig = (l.map (dayKey day)).map Prod.fst := by
    intro l
    rw [List.map_map]
    rfl
  rw [e apps, e apps', h]

theorem canRun_congr {day : Nat} {a b : Appliance}
    (h : dayKey day a = dayKey day b) (hour : Nat) (avail : ℚ) :
    canRun a hour day avail = canRun b hour day avail := by
  have hcfg : applianceConfig a = applianceConfig b := congrArg Prod.fst h
  have hdr : a.daily_runtime day = b.daily_runtime day := congrArg Prod.snd h
  obtain ⟨_, hp, _, hst, het, hmr⟩ := applianceConfig_inj hcfg
  simp [canRun, eligibleAt, Appliance.get_daily_runtime, hp, hst, het, hmr, hdr]

theorem specAdmitFlags_congr (hour day : Nat) :
    ∀ (apps apps' : List Appliance),
      apps.map (dayKey day) = apps'.map (dayKey day) →
      ∀ avail, specAdmitFlags hour day avail apps =
        specAdmitFlags hour day avail apps' := by
  intro apps
  induction apps with
  | nil =>
    intro apps' h avail
    cases apps' with
    | nil => rfl
    | cons b bs => simp at h
  | cons a as ih =>
    intro apps' h avail
    cases apps' with
    | nil => simp at h
    | cons b bs =>
      simp only [List.map_cons, List.cons.injEq] at h
      obtain ⟨hk, ht⟩ := h
      have hp : a.power = b.power :=
        (applianceConfig_inj (congrArg Prod.fst hk)).2.1
      rw [specAdmitFlags, specAdmitFlags, canRun_congr hk]
      by_cases hb : canRun b hour day avail = true
      · rw [if_pos hb, if_pos hb, hp, ih bs ht]
      · rw [if_neg hb, if_neg hb, ih bs ht]

theorem flaggedPowerSum_congr :
    ∀ (apps apps' : List Appliance),
      apps.map applianceConfig = apps'.map applianceConfig →
      ∀ fl, flaggedPowerSum apps fl = flaggedPowerSum apps' fl := by
  intro apps
  induction apps with
  | nil =>
    intro apps' h fl
    cases apps' with
    | nil => rfl
    | cons b bs => simp at h
  | cons a as ih =>
    intro apps' h fl
    cases apps' with
    | nil => simp at h
    | cons b bs =>
      simp only [List.map_cons, List.cons.injEq] at h
      obtain ⟨hk, ht⟩ := h
      have hp : a.power = b.power := (applianceConfig_inj hk).2.1
      match fl with
      | [] => rfl
      | true :: fs => rw [flaggedPowerSum, flaggedPowerSum, hp, ih bs ht]
      | false :: fs => rw [flaggedPowerSum, flaggedPowerSum, ih bs ht]

theorem flaggedNames_congr :
    ∀ (apps apps' : List Appliance),
      apps.map applianceConfig = apps'.map applianceConfig →
      ∀ fl, flaggedNames apps fl = flaggedNames apps' fl := by
  intro apps
  induction apps with
  | nil =>
    intro apps' h fl
    cases apps' with
    | nil => rfl
    | cons b bs => simp at h
  | cons a as ih =>
    intro apps' h fl
    cases apps' with
    | nil => simp at h
    | cons b bs =>
      simp only [List.map_cons, List.cons.injEq] at h
      obtain ⟨hk, ht⟩ := h
      have hn : a.name = b.name := (applianceConfig_inj hk).1
      match fl with
      | [] => rfl
      | true :: fs => rw [flaggedNames, flaggedNames, hn, ih bs ht]
      | false :: fs => rw [flaggedNames, flaggedNames, ih bs ht]

theorem applyFlags_congr (day : Nat) :
    ∀ (apps apps' : List Appliance),
      apps.map (dayKey day) = apps'.map (dayKey day) →
      ∀ fl, (applyFlags day apps fl).map (dayKey day) =
        (applyFlags day apps' fl).map (dayKey day) := by
  intro apps
  induction apps with
  | nil =>
    intro apps' h fl
    cases apps' with
    | nil => rfl
    | cons b bs => simp at h
  | cons a as ih =>
    intro apps' h fl
    cases apps' with
    | nil => simp at h
    | cons b bs =>
      simp only [List.map_cons, List.cons.injEq] at h
      obtain ⟨hk, ht⟩ := h
      match fl with
      | [] => simp only [applyFlags, List.map_cons, hk, ht]
      | f :: fs =>
        rw [applyFlags, applyFlags, List.map_cons, List.map_cons,
          ih bs ht fs]
        cases f with
        | false => rw [if_neg Bool.false_ne_true, if_neg Bool.false_ne_true, hk]
        | true =>
          have hcfg : applianceConfig a = applianceConfig b :=
            congrArg Prod.fst hk
          have hdr : a.daily_runtime day = b.daily_runtime day :=
            congrArg Prod.snd hk
          rw [if_pos rfl, if_pos rfl, dayKey_add_runtime_self,
            dayKey_add_runtime_self, hcfg, hdr]

theorem applyFlags_config (day : Nat) :
    ∀ (apps : List Appliance) (fl : List Bool),
      (applyFlags day apps fl).map applianceConfig =
        apps.map applianceConfig := by
  intro apps
  induction apps with
  | nil => intro fl; cases fl <;> rfl
  | cons a as ih =>
    intro fl
    match fl with
    | [] => rfl
    | f :: fs =>
      rw [applyFlags, List.map_cons, List.map_cons, ih fs]
      cases f with
      | false => rfl
      | true => rw [if_pos rfl, applianceConfig_add_runtime]

theorem simulate_hour_congr (battery_capacity : ℚ) (hour day : Nat)
    (battery_charge total_generation : ℚ) {apps apps' : List Appliance}
    (h : apps.map (dayKey day) = apps'.map (dayKey day)) :
    (simulate_hour battery_capacity hour day battery_charge total_generation
        apps).1 =
      (simulate_hour battery_capacity hour day battery_charge total_generation
        apps').1 ∧
    ((simulate_hour battery_capacity hour day battery_charge total_generation
        apps).2).map (dayKey day) =
      ((simulate_hour battery_capacity hour day battery_charge total_generation
        apps').2).map (dayKey day) := by
  have hcfg := dayKey_map_config h
  have hfl := specAdmitFlags_congr hour day apps apps' h
    (total_generation * solar_generation_data hour + battery_charge)
  rw [simulate_hour_eq, simulate_hour_eq]
  constructor
  · rw [hfl, flaggedPowerSum_congr apps apps' hcfg,
      flaggedNames_congr apps apps' hcfg]
  · rw [hfl, applyFlags_congr day apps apps' h]

theorem simulate_hour_config (battery_capacity : ℚ) (hour day : Nat)
    (battery_charge total_generation : ℚ) (apps : List Appliance) :
    ((simulate_hour battery_capacity hour day battery_charge total_generation
        apps).2).map applianceConfig = apps.map applianceConfig := by
  rw [simulate_hour_eq]
  exact applyFlags_config day apps _

theorem simulate_hours_congr (battery_capacity total_generation : ℚ)
    (day : Nat) :
    ∀ (hs : List Nat) (battery_charge : ℚ) (apps apps' : List Appliance),
      apps.map (dayKey day) = apps'.map (dayKey day) →
      (simulate_hours battery_capacity total_generation day hs battery_charge
          apps).1 =
        (simulate_hours battery_capacity total_generation day hs battery_charge
          apps').1 ∧
      (simulate_hours battery_capacity total_generation day hs battery_charge
          apps).2.1 =
        (simulate_hours battery_capacity total_generation day hs battery_charge
          apps').2.1 ∧
      ((simulate_hours battery_capacity total_generation day hs battery_charge
          apps).2.2).map (dayKey day) =
        ((simulate_hours battery_capacity total_generation day hs battery_charge
          apps').2.2).map (dayKey day) := by
  intro hs
  induction hs with
  | nil => exact fun bc apps apps' h => ⟨rfl, rfl, h⟩
  | cons hr hs ih =>
    intro bc apps apps' h
    obtain ⟨hres, hkeys⟩ :=
      simulate_hour_congr battery_capacity hr day bc total_generation h
    obtain ⟨h1, h2, h3⟩ := ih
      ((simulate_hour battery_capacity hr day bc total_generation
        apps').1.battery_charge)
      ((simulate_hour battery_capacity hr day bc total_generation apps).2)
      ((simulate_hour battery_capacity hr day bc total_generation apps').2)
      hkeys
    simp only [simulate_hours]
    rw [hres]
    exact ⟨by rw [h1], by rw [h2], by rw [h3]⟩

theorem simulate_hours_config (battery_capacity total_generation : ℚ)
    (day : Nat) :
    ∀ (hs : List Nat) (battery_charge : ℚ) (apps : List Appliance),
      ((simulate_hours battery_capacity total_generation day hs battery_charge
          apps).2.2).map applianceConfig = apps.map applianceConfig := by
  intro hs
  induction hs with
  | nil => exact fun bc apps => rfl
  | cons hr hs ih =>
    intro bc apps
    simp only [simulate_hours]
    exact (ih _ _).trans
      (simulate_hour_config battery_capacity hr day bc total_generation apps)

theorem simulate_days_from_congr (battery_capacity total_generation : ℚ) :
    ∀ (ds : List Nat) (battery_charge : ℚ) (apps apps' : List Appliance),
      apps.map applianceConfig = apps'.map applianceConfig →
      (simulate_days_from battery_capacity total_generation ds battery_charge
          apps).1 =
        (simulate_days_from battery_capacity total_generation ds battery_charge
          apps').1 ∧
      (simulate_days_from battery_capacity total_generation ds battery_charge
          apps).2.1 =
        (simulate_days_from battery_capacity total_generation ds battery_charge
          apps').2.1 ∧
      ((simulate_days_from battery_capacity total_generation ds battery_charge
          apps).2.2).map applianceConfig =
        ((simulate_days_from battery_capacity total_generation ds battery_charge
          apps').2.2).map applianceConfig := by
  intro ds
  induction ds with
  | nil => exact fun bc apps apps' h => ⟨rfl, rfl, h⟩
  | cons d ds ih =>
    intro bc apps apps' h
    have hreset : (apps.map fun a => a.reset_daily_runtime d).map (dayKey d) =
        (apps'.map fun a => a.reset_daily_runtime d).map (dayKey d) := by
      rw [List.map_map, List.map_map]
      have e : (dayKey d ∘ fun a => a.reset_daily_runtime d) =
          fun a => (applianceConfig a, (0 : ℚ)) :=
        funext fun a => dayKey_reset_self a d
      rw [e]
      have e2 : ∀ l : List Appliance,
          l.map (fun a => (applianceConfig a, (0 : ℚ))) =
            (l.map applianceConfig).map (fun c => (c, (0 : ℚ))) := by
        intro l
        rw [List.map_map]
        rfl
      rw [e2, e2, h]
    obtain ⟨hres, hbc, hkeys⟩ := simulate_hours_congr battery_capacity
      total_generation d (List.range 24) bc _ _ hreset
    simp only [simulate_days_from]
    generalize simulate_hours battery_capacity total_generation d
      (List.range 24) bc
      (apps.map fun a => a.reset_daily_runtime d) = X at hres hbc hkeys ⊢
    generalize simulate_hours battery_capacity total_generation d
      (List.range 24) bc
      (apps'.map fun a => a.reset_daily_runtime d) = Y at hres hbc hkeys ⊢
    obtain ⟨h1, h2, h3⟩ := ih Y.2.1 X.2.2 Y.2.2 (dayKey_map_config hkeys)
    rw [hres, hbc]
    exact ⟨by rw [h1], by rw [h2], by rw [h3]⟩

theorem simulate_days_from_config (battery_capacity total_generation : ℚ) :
    ∀ (ds : List Nat) (battery_charge : ℚ) (apps : List Appliance),
      ((simulate_days_from battery_capacity total_generation ds battery_charge
          apps).2.2).map applianceConfig = apps.map applianceConfig := by
  intro ds
  induction ds with
  | nil => exact fun bc apps => rfl
  | cons d ds ih =>
    intro bc apps
    simp only [simulate_days_from]
    refine (ih _ _).trans ?_
    refine (simulate_hours_config battery_capacity total_generation d
      (List.range 24) bc _).trans ?_
    rw [List.map_map]
    have e : (applianceConfig ∘ fun a => a.reset_daily_runtime d) =
        applianceConfig :=
      funext fun a => applianceConfig_reset a d
    rw [e]

/-- Running the driver a second time on the appliances mutated by the
first run replays the results of the first run exactly: each simulated day
starts by resetting the runtime entry for that day, and the hourly step reads
nothing else of the mutable state. -/
theorem simulate_days_twice (battery_capacity total_generation : ℚ)
    (num_days : Nat) (apps : List Appliance) :
    (simulate_days battery_capacity total_generation num_days
        ((simulate_days battery_capacity total_generation num_days apps).2)).1 =
      (simulate_days battery_capacity total_generation num_days apps).1 := by
  simp only [simulate_days]
  exact (simulate_days_from_congr battery_capacity total_generation
    (List.range num_days) battery_capacity _ _
    (simulate_days_from_config battery_capacity total_generation
      (List.range num_days) battery_capacity apps)).1

/-- C5 fails on the code: running the 3-day simulation twice on the same
household (one always-on appliance, runtime counters not reset between
the calls) yields the same result sequence both times. -/
theorem claim_C5_counterexample :
    (simulate_days 50 100 3 ((simulate_days 50 100 3 [appB]).2)).1 =
      (simulate_days 50 100 3 [appB]).1 :=
  simulate_days_twice 50 100 3 [appB]

/-- C5 amended: two consecutive invocations of the multi-day simulation
driver on the same unmodified household, without resetting runtime
counters in between, ARE idempotent — the result sequence of the second
call equals that of the first, because the driver itself resets the
`daily_runtime` of each appliance for every simulated day before any hour of that day, so
the persisting counters never influence the results. -/
theorem claim_C5 (battery_capacity total_generation : ℚ) (num_days : Nat)
    (apps : List Appliance) :
    (simulate_days battery_capacity total_generation num_days
        ((simulate_days battery_capacity total_generation num_days apps).2)).1 =
      (simulate_days battery_capacity total_generation num_days apps).1 :=
  simulate_days_twice battery_capacity total_generation num_days apps

end SunSim
